import Mathlib

/- Shallow embedding of the RFID-DB-Storage repository: script.py defines
   DebugSerialLogger (sqlite backend, single antenna) and script2.py defines
   AntennaSerialLogger (networked backend, antenna tag 1 or 2).  Bytes are
   naturals below 256, text is a list of unicode code points, time is an
   abstract natural counter.  Fallible external effects (serial reads, the
   record insert, the reconnect) are passed in as per-iteration oracle fields
   of IterEnv, and the monitor thread is modelled as a step function over the
   logger state. -/

namespace SerialDB

/-- Whitespace set of the Python str.strip method called with no arguments. -/
def isPySpace (c : Nat) : Bool :=
  (9 ≤ c && c ≤ 13) || c == 32 || (28 ≤ c && c ≤ 31) || c == 0x85 || c == 0xA0 ||
    c == 0x1680 || (0x2000 ≤ c && c ≤ 0x200A) || c == 0x2028 || c == 0x2029 ||
    c == 0x202F || c == 0x205F || c == 0x3000

/-- Python str.strip with no arguments: remove whitespace at both ends. -/
def pyStrip (s : List Nat) : List Nat :=
  ((s.dropWhile isPySpace).reverse.dropWhile isPySpace).reverse

/-- UTF-8 continuation byte test. -/
def isCont (b : Nat) : Bool := 0x80 ≤ b && b ≤ 0xBF

/-- Allowed first continuation byte of a three byte sequence (strict decoder:
    overlong encodings and surrogates are rejected, as bytes.decode does). -/
def cont1ok3 (b c1 : Nat) : Bool :=
  if b == 0xE0 then 0xA0 ≤ c1 && c1 ≤ 0xBF
  else if b == 0xED then 0x80 ≤ c1 && c1 ≤ 0x9F
  else isCont c1

/-- Allowed first continuation byte of a four byte sequence. -/
def cont1ok4 (b c1 : Nat) : Bool :=
  if b == 0xF0 then 0x90 ≤ c1 && c1 ≤ 0xBF
  else if b == 0xF4 then 0x80 ≤ c1 && c1 ≤ 0x8F
  else isCont c1

/-- Strict UTF-8 decoding of a byte list into code points; the none result
    models the UnicodeDecodeError branch of raw_data.decode in both loops. -/
def utf8Decode : List Nat → Option (List Nat)
  | [] => some []
  | b :: rest =>
    if b ≤ 0x7F then (utf8Decode rest).map (fun t => b :: t)
    else if 0xC2 ≤ b && b ≤ 0xDF then
      match rest with
      | c1 :: r =>
        if isCont c1 then
          (utf8Decode r).map (fun t => ((b - 0xC0) * 0x40 + (c1 - 0x80)) :: t)
        else none
      | [] => none
    else if 0xE0 ≤ b && b ≤ 0xEF then
      match rest with
      | c1 :: c2 :: r =>
        if cont1ok3 b c1 && isCont c2 then
          (utf8Decode r).map
            (fun t => ((b - 0xE0) * 0x1000 + (c1 - 0x80) * 0x40 + (c2 - 0x80)) :: t)
        else none
      | _ => none
    else if 0xF0 ≤ b && b ≤ 0xF4 then
      match rest with
      | c1 :: c2 :: c3 :: r =>
        if cont1ok4 b c1 && isCont c2 && isCont c3 then
          (utf8Decode r).map
            (fun t =>
              ((b - 0xF0) * 0x40000 + (c1 - 0x80) * 0x1000 + (c2 - 0x80) * 0x40 +
                (c3 - 0x80)) :: t)
        else none
      | _ => none
    else none

/-- Lower case hex digit as a code point, as produced by bytes.hex. -/
def hexDigitChar (n : Nat) : Nat := if n < 10 then 48 + n else 87 + n

/-- Hex encoding of a byte list as code points: raw_data.hex() in the source. -/
def bytesToHex (bs : List Nat) : List Nat :=
  bs.flatMap (fun b => [hexDigitChar (b / 16), hexDigitChar (b % 16)])

/-- The data_type column values used by both scripts. -/
inductive DataType
  | auto_received
  | binary_received
  | command_sent
deriving DecidableEq

/-- The self.stats dictionary of both logger classes. -/
structure Stats where
  bytes_received : Nat
  messages_received : Nat
  last_data_time : Option Nat
deriving DecidableEq

/-- One row of the serial_logs table, restricted to the columns the claims
    mention.  The raw_bytes column (str(raw_bytes) in script.py, the hex text
    in script2.py) and the store assigned id and timestamp are not referred to
    by any claim and are left out of the embedding. -/
structure LogRecord where
  data : List Nat
  data_type : DataType
  byte_count : Nat
  antenna : Option Nat
deriving DecidableEq

/-- Outcome of one serial readline call: either the returned byte list
    (possibly empty on timeout) or a raised read exception. -/
inductive ReadEvent
  | data (raw : List Nat)
  | fault
deriving DecidableEq

/-- Per-iteration oracle for the monitor loop: whether stop() flipped the
    running flag just before the iteration, the readline outcome, whether the
    insert commits, whether a reconnect attempt would succeed, and the clock. -/
structure IterEnv where
  stopSignal : Bool
  readEvent : ReadEvent
  insertOk : Bool
  reconnectOk : Bool
  now : Nat
deriving DecidableEq

/-- The three stat updates of script.py lines 122 to 124 (identical in
    script2.py lines 195 to 197), taken as one completed update. -/
def updateStats (st : Stats) (rawLen now : Nat) : Stats :=
  { bytes_received := st.bytes_received + rawLen,
    messages_received := st.messages_received + 1,
    last_data_time := some now }

/-- The same three stat updates as the source performs them: three separate
    assignments.  Index 0 is the state before the first write, index 3 the
    state after the last; a concurrent reader can observe any index. -/
def statWriteSeq (st : Stats) (rawLen now : Nat) : List Stats :=
  [st,
   { st with bytes_received := st.bytes_received + rawLen },
   { st with bytes_received := st.bytes_received + rawLen,
             messages_received := st.messages_received + 1 },
   { st with bytes_received := st.bytes_received + rawLen,
             messages_received := st.messages_received + 1,
             last_data_time := some now }]

/-- A byte and message counter pair is consistent with a history of read
    lengths when it matches some prefix of that history. -/
def consistentSnapshot (lens : List Nat) (b m : Nat) : Bool :=
  (List.range (lens.length + 1)).any (fun k => m == k && b == (lens.take k).sum)

/-- Length of the payload an iteration accounts to the stats: the readline
    result when the port is open, the read returned and was nonempty. -/
def iterLen (serialOpen : Bool) (e : IterEnv) : Option Nat :=
  if serialOpen then
    match e.readEvent with
    | ReadEvent.data raw => if raw.isEmpty then none else some raw.length
    | ReadEvent.fault => none
  else none

/-- The successful nonempty read lengths of a run of iterations. -/
def readLens (serialOpen : Bool) (envs : List IterEnv) : List Nat :=
  envs.filterMap (iterLen serialOpen)

/-- Bytes consumed by one readline call on the currently buffered bytes: up to
    and including the first line feed, or everything buffered on timeout.
    Returns the line and the remaining buffer. -/
def readlineBytes (buf : List Nat) : List Nat × List Nat :=
  let before := buf.takeWhile (fun b => b != 10)
  match buf.dropWhile (fun b => b != 10) with
  | nl :: tail => (before ++ [nl], tail)
  | [] => (before, [])

/-- The behaviour the claim text asks of the stored data field: only trailing
    line terminator characters removed.  Stated from the claim wording, to be
    compared with pyStrip which is what the source applies. -/
def stripTrailingLineTerms (s : List Nat) : List Nat :=
  (s.reverse.dropWhile (fun c => c == 10 || c == 13)).reverse

/-- The join timeout passed to log_thread.join in both stop methods. -/
def stopJoinLimit : Nat := 2

namespace Script1

/-- The mutable attributes of DebugSerialLogger in script.py.  threads counts
    the live monitor threads (log_thread alive). -/
structure State where
  running : Bool
  serial_open : Bool
  db_open : Bool
  threads : Nat
  stats : Stats
deriving DecidableEq

/-- State after the constructor of script.py: no serial connection yet, the
    sqlite connection open (setup_database ran), monitoring off. -/
def init : State :=
  { running := false, serial_open := false, db_open := true, threads := 0,
    stats := { bytes_received := 0, messages_received := 0, last_data_time := none } }

/-- log_data of script.py lines 74 to 88: the insert is attempted and any
    exception is printed and swallowed, so the result is the stored row or
    none on a storage failure, and the caller never sees an exception.
    byte_count is len(raw_bytes), the original byte count. -/
def log_data (insertOk : Bool) (data : List Nat) (raw_bytes : List Nat)
    (data_type : DataType) : Option LogRecord :=
  if insertOk then
    some { data := data, data_type := data_type, byte_count := raw_bytes.length,
           antenna := none }
  else none

/-- Possible outcomes of the start_monitoring guard. -/
inductive StartResult
  | ok
  | alreadyRunning
  | invalidAntenna
deriving DecidableEq

/-- start_monitoring of script.py lines 90 to 99: when already running it
    only prints and returns, changing nothing and spawning nothing; otherwise
    it flips running and starts one monitor thread. -/
def start_monitoring (s : State) : State × StartResult :=
  if s.running then (s, StartResult.alreadyRunning)
  else ({ s with running := true, threads := s.threads + 1 }, StartResult.ok)

/-- One pass of the body of _monitor_loop (script.py lines 110 to 162),
    restricted to its state effect and the row handed to the store.  A read
    fault is caught at line 143; a decode failure takes the binary branch at
    line 134; an insert failure is swallowed inside log_data.  The in_waiting
    peek (method 1) and the single byte read (method 3) touch no state that
    is modelled here; byte consumption is treated separately by iterConsume. -/
def monitorIterBody (s : State) (e : IterEnv) : State × Option LogRecord :=
  if s.serial_open then
    match e.readEvent with
    | ReadEvent.fault => (s, none)
    | ReadEvent.data raw =>
      if raw.isEmpty then (s, none)
      else
        ({ s with stats := updateStats s.stats raw.length e.now },
         match utf8Decode raw with
         | some cps => log_data e.insertOk (pyStrip cps) raw DataType.auto_received
         | none => log_data e.insertOk (bytesToHex raw) raw DataType.binary_received)
  else (s, none)

/-- The row one iteration hands to the store, as a function of the oracle. -/
def iterRecord (serialOpen : Bool) (e : IterEnv) : Option LogRecord :=
  if serialOpen then
    match e.readEvent with
    | ReadEvent.fault => none
    | ReadEvent.data raw =>
      if raw.isEmpty then none
      else
        match utf8Decode raw with
        | some cps => log_data e.insertOk (pyStrip cps) raw DataType.auto_received
        | none => log_data e.insertOk (bytesToHex raw) raw DataType.binary_received
  else none

/-- The while running loop of _monitor_loop over a list of iteration oracles.
    A stop signal is the stop() caller flipping running before the loop next
    tests it; the loop exits exactly when that test sees false. -/
def monitorLoop : State → List IterEnv → State × List LogRecord
  | s, [] => (s, [])
  | s, e :: rest =>
    let s0 := if e.stopSignal then { s with running := false } else s
    if s0.running then
      let p := monitorIterBody s0 e
      let q := monitorLoop p.1 rest
      (q.1, p.2.toList ++ q.2)
    else (s0, [])

/-- send_command of script.py lines 178 to 201: refuses without a connection,
    logs the sent command on a successful write, swallows write errors.
    cmd is the command text and cmd_bytes its newline terminated encoding. -/
def send_command (s : State) (cmd : List Nat) (cmd_bytes : List Nat)
    (writeOk insertOk : Bool) : State × Option LogRecord :=
  if s.serial_open then
    if writeOk then (s, log_data insertOk cmd cmd_bytes DataType.command_sent)
    else (s, none)
  else (s, none)

/-- Observable outcome of stop(): the final state, the join timeout used when
    a live thread was joined, and the stats printed by the final show_stats. -/
structure StopOutcome where
  state : State
  join_timeout : Option Nat
  printed_stats : Stats
deriving DecidableEq

/-- stop of script.py lines 225 to 240: flips running, joins a live monitor
    thread for at most stopJoinLimit, closes the serial and sqlite handles,
    prints the final stats. -/
def stop (s : State) : StopOutcome :=
  let closed : State :=
    { s with running := false, threads := 0, serial_open := false, db_open := false }
  { state := closed,
    join_timeout := if 0 < s.threads then some stopJoinLimit else none,
    printed_stats := s.stats }

/-- The operations of DebugSerialLogger reachable from the interactive loop
    plus the monitor iterations interleaved by the background thread. -/
inductive Op1
  | connect (ok : Bool)
  | start
  | iter (e : IterEnv)
  | send (cmd : List Nat) (cmd_bytes : List Nat) (writeOk insertOk : Bool)
  | test
  | show_stats
  | stop
deriving DecidableEq

/-- State effect of one operation. -/
def stepOp (s : State) (op : Op1) : State :=
  match op with
  | Op1.connect ok => { s with serial_open := ok }
  | Op1.start => (start_monitoring s).1
  | Op1.iter e => if s.running then (monitorIterBody s e).1 else s
  | Op1.send cmd cb w i => (send_command s cmd cb w i).1
  | Op1.test => s
  | Op1.show_stats => s
  | Op1.stop => (stop s).state

/-- State after a sequence of operations from the constructor. -/
def run (ops : List Op1) : State := ops.foldl stepOp init

/-- Bytes one iteration takes from the buffered input: the readline call
    (script.py line 120) and then, when bytes remain, the single byte read of
    method 3 (script.py lines 146 to 155).  Result: the line, the extra byte
    consumed by the single byte read, and the remaining buffer. -/
def iterConsume (buf : List Nat) : List Nat × Option Nat × List Nat :=
  let r := readlineBytes buf
  match r.2 with
  | b :: tail => (r.1, some b, tail)
  | [] => (r.1, none, [])

end Script1

namespace Script2

/-- The mutable attributes of AntennaSerialLogger in script2.py.  The
    current_antenna attribute is only created by set_antenna or
    start_monitoring, never by the constructor, so it is an Option: none
    models the attribute being absent on the instance. -/
structure State where
  running : Bool
  serial_open : Bool
  db_open : Bool
  threads : Nat
  current_antenna : Option Nat
  stats : Stats
deriving DecidableEq

/-- State after the constructor of script2.py: setup_database connected (the
    process exits on failure), no serial connection, no current_antenna. -/
def init : State :=
  { running := false, serial_open := false, db_open := true, threads := 0,
    current_antenna := none,
    stats := { bytes_received := 0, messages_received := 0, last_data_time := none } }

/-- log_data of script2.py lines 107 to 133: nothing happens when the
    connection object reports closed; otherwise the insert is attempted and a
    backend error triggers reconnect_db (lines 128 to 131), whose success
    decides whether the connection is open afterwards.  Result: connection
    state after the call, the stored row if the insert committed, and whether
    a reconnect was attempted.  No exception ever escapes to the caller. -/
def log_data (dbOpen insertOk reconnectOk : Bool) (data : List Nat)
    (raw_bytes : List Nat) (antenna : Nat) (data_type : DataType) :
    Bool × Option LogRecord × Bool :=
  if dbOpen then
    if insertOk then
      (dbOpen,
       some { data := data, data_type := data_type,
              byte_count := raw_bytes.length, antenna := some antenna },
       false)
    else (reconnectOk, none, true)
  else (dbOpen, none, false)

/-- set_antenna of script2.py lines 155 to 163: rejects values outside 1 and
    2 without touching the state, otherwise records the choice. -/
def set_antenna (s : State) (n : Nat) : State × Bool :=
  if n ≠ 1 ∧ n ≠ 2 then (s, false)
  else ({ s with current_antenna := some n }, true)

/-- start_monitoring of script2.py lines 165 to 184: refuses when already
    running (before validating the antenna), refuses an invalid antenna, and
    otherwise stores the antenna, flips running and spawns one thread. -/
def start_monitoring (s : State) (antenna : Nat) : State × Script1.StartResult :=
  if s.running then (s, Script1.StartResult.alreadyRunning)
  else if antenna ≠ 1 ∧ antenna ≠ 2 then (s, Script1.StartResult.invalidAntenna)
  else
    let started : State :=
      { s with current_antenna := some antenna, running := true,
               threads := s.threads + 1 }
    (started, Script1.StartResult.ok)

/-- One pass of the body of _monitor_loop (script2.py lines 186 to 233).
    The stats are updated before the first use of current_antenna, so an
    absent attribute (only possible if the loop ran without start_monitoring)
    raises after the stat update and is caught by the read error handler,
    storing nothing. -/
def monitorIterBody (s : State) (e : IterEnv) : State × Option LogRecord :=
  if s.serial_open then
    match e.readEvent with
    | ReadEvent.fault => (s, none)
    | ReadEvent.data raw =>
      if raw.isEmpty then (s, none)
      else
        let s1 := { s with stats := updateStats s.stats raw.length e.now }
        match s.current_antenna with
        | none => (s1, none)
        | some a =>
          let out :=
            match utf8Decode raw with
            | some cps =>
              log_data s.db_open e.insertOk e.reconnectOk (pyStrip cps) raw a
                DataType.auto_received
            | none =>
              log_data s.db_open e.insertOk e.reconnectOk (bytesToHex raw) raw a
                DataType.binary_received
          ({ s1 with db_open := out.1 }, out.2.1)
  else (s, none)

/-- The while running loop of _monitor_loop over a list of iteration oracles. -/
def monitorLoop : State → List IterEnv → State × List LogRecord
  | s, [] => (s, [])
  | s, e :: rest =>
    let s0 := if e.stopSignal then { s with running := false } else s
    if s0.running then
      let p := monitorIterBody s0 e
      let q := monitorLoop p.1 rest
      (q.1, p.2.toList ++ q.2)
    else (s0, [])

/-- The getattr(logger, current_antenna, 1) fallback used by the interactive
    start command of script2.py line 313. -/
def antennaOrDefault (s : State) : Nat := s.current_antenna.getD 1

/-- Observable outcome of stop(), as for the first script. -/
structure StopOutcome where
  state : State
  join_timeout : Option Nat
  printed_stats : Stats
deriving DecidableEq

/-- stop of script2.py lines 246 to 261. -/
def stop (s : State) : StopOutcome :=
  let closed : State :=
    { s with running := false, threads := 0, serial_open := false, db_open := false }
  { state := closed,
    join_timeout := if 0 < s.threads then some stopJoinLimit else none,
    printed_stats := s.stats }

/-- The operations of AntennaSerialLogger reachable from its interactive loop
    plus the monitor iterations interleaved by the background thread. -/
inductive Op2
  | connect (ok : Bool)
  | set_antenna (n : Nat)
  | start (antenna : Nat)
  | iter (e : IterEnv)
  | show_stats
  | stop
deriving DecidableEq

/-- State effect of one operation. -/
def stepOp (s : State) (op : Op2) : State :=
  match op with
  | Op2.connect ok => { s with serial_open := ok }
  | Op2.set_antenna n => (set_antenna s n).1
  | Op2.start a => (start_monitoring s a).1
  | Op2.iter e => if s.running then (monitorIterBody s e).1 else s
  | Op2.show_stats => s
  | Op2.stop => (stop s).state

/-- State after a sequence of operations from the constructor. -/
def run (ops : List Op2) : State := ops.foldl stepOp init

/-- Bytes one iteration of script2.py takes from the buffered input: only the
    readline call at line 193; there is no second read path. -/
def iterConsume (buf : List Nat) : List Nat × List Nat := readlineBytes buf

end Script2

/-- A running debug logger with open connections and fresh stats. -/
def s1ex : Script1.State :=
  { running := true, serial_open := true, db_open := true, threads := 1,
    stats := { bytes_received := 0, messages_received := 0, last_data_time := none } }

/-- A running antenna logger on antenna 2 with open connections. -/
def s2ex : Script2.State :=
  { running := true, serial_open := true, db_open := true, threads := 1,
    current_antenna := some 2,
    stats := { bytes_received := 0, messages_received := 0, last_data_time := none } }

/-- Oracle: readline returns the bytes of hi with a line feed, all effects
    succeed. -/
def envHello : IterEnv :=
  { stopSignal := false, readEvent := ReadEvent.data [104, 105, 10],
    insertOk := true, reconnectOk := true, now := 7 }

/-- Oracle: readline returns a lone line feed (decodes to the empty string
    after stripping). -/
def envNl : IterEnv :=
  { stopSignal := false, readEvent := ReadEvent.data [10],
    insertOk := true, reconnectOk := true, now := 8 }

/-- Oracle: readline returns one byte that is not valid UTF-8. -/
def envBin : IterEnv :=
  { stopSignal := false, readEvent := ReadEvent.data [255],
    insertOk := true, reconnectOk := true, now := 9 }

/-- Oracle: a payload with a leading space, to separate the strip behaviours. -/
def envSpaceA : IterEnv :=
  { stopSignal := false, readEvent := ReadEvent.data [32, 97, 10],
    insertOk := true, reconnectOk := true, now := 3 }

/-- Oracle: the read succeeds but the insert fails. -/
def envBadInsert : IterEnv :=
  { stopSignal := false, readEvent := ReadEvent.data [104, 105, 10],
    insertOk := false, reconnectOk := true, now := 4 }

/-- Oracle: readline timed out with no data. -/
def envIdle : IterEnv :=
  { stopSignal := false, readEvent := ReadEvent.data [],
    insertOk := true, reconnectOk := true, now := 5 }

/-- Oracle: stop() flipped running before this iteration. -/
def envStop : IterEnv :=
  { stopSignal := true, readEvent := ReadEvent.data [],
    insertOk := true, reconnectOk := true, now := 6 }

/-- Zeroed stats, as set by both constructors. -/
def stats0 : Stats :=
  { bytes_received := 0, messages_received := 0, last_data_time := none }

/-- The row the antenna logger stores for the envHello payload on antenna 2. -/
def recHello2 : LogRecord :=
  { data := [104, 105], data_type := DataType.auto_received, byte_count := 3,
    antenna := some 2 }

theorem iterLen_pos (so : Bool) (e : IterEnv) (n : Nat)
    (h : iterLen so e = some n) : 1 ≤ n := by
  unfold iterLen at h
  cases so with
  | false => simp at h
  | true =>
    simp only [if_true] at h
    cases hre : e.readEvent with
    | fault => rw [hre] at h; simp at h
    | data raw =>
      rw [hre] at h
      cases raw with
      | nil => simp at h
      | cons a l => simp at h; omega

theorem Script1.iter_record_eq (s : State) (e : IterEnv) :
    (monitorIterBody s e).2 = iterRecord s.serial_open e := by
  unfold monitorIterBody iterRecord
  cases hso : s.serial_open with
  | false => simp
  | true =>
    cases hre : e.readEvent with
    | fault => simp
    | data raw =>
      by_cases hr : raw = [] <;> simp [hr]

theorem Script1.iter_state_debug (s : State) (e : IterEnv) :
    (monitorIterBody s e).1.running = s.running ∧
    (monitorIterBody s e).1.serial_open = s.serial_open ∧
    (monitorIterBody s e).1.threads = s.threads ∧
    (monitorIterBody s e).1.db_open = s.db_open ∧
    (monitorIterBody s e).1.stats.bytes_received =
      s.stats.bytes_received + (iterLen s.serial_open e).getD 0 ∧
    (monitorIterBody s e).1.stats.messages_received =
      s.stats.messages_received +
        (if (iterLen s.serial_open e).isSome then 1 else 0) := by
  unfold monitorIterBody iterLen
  cases hso : s.serial_open with
  | false => simp [hso]
  | true =>
    cases hre : e.readEvent with
    | fault => simp [hso]
    | data raw =>
      by_cases hr : raw = [] <;> simp [hr, hso, updateStats]

theorem Script1.loop_spec (envs : List IterEnv) : ∀ s : State,
    s.running = true → (∀ e ∈ envs, e.stopSignal = false) →
    (monitorLoop s envs).1.running = true ∧
    (monitorLoop s envs).1.serial_open = s.serial_open ∧
    (monitorLoop s envs).2 = envs.filterMap (iterRecord s.serial_open) ∧
    (monitorLoop s envs).1.stats.bytes_received =
      s.stats.bytes_received + (readLens s.serial_open envs).sum ∧
    (monitorLoop s envs).1.stats.messages_received =
      s.stats.messages_received + (readLens s.serial_open envs).length := by
  induction envs with
  | nil =>
    intro s hrun _
    simp [monitorLoop, readLens, hrun]
  | cons e rest ih =>
    intro s hrun hns
    have hse : e.stopSignal = false := hns e (List.mem_cons_self e rest)
    have hrest : ∀ x ∈ rest, x.stopSignal = false :=
      fun x hx => hns x (List.mem_cons_of_mem e hx)
    obtain ⟨hr1, hs1, _, _, hb1, hm1⟩ := iter_state_debug s e
    have hrun1 : (monitorIterBody s e).1.running = true := by rw [hr1]; exact hrun
    obtain ⟨ih1, ih2, ih3, ih4, ih5⟩ := ih (monitorIterBody s e).1 hrun1 hrest
    rw [hs1] at ih2 ih3 ih4 ih5
    have hrec := iter_record_eq s e
    simp only [monitorLoop, hse, if_false, Bool.false_eq_true, ite_false, hrun, ite_true]
    refine ⟨ih1, ih2, ?_, ?_, ?_⟩
    · rw [hrec, ih3, List.filterMap_cons]
      cases iterRecord s.serial_open e <;> simp
    · rw [ih4, hb1]
      unfold readLens
      rw [List.filterMap_cons]
      cases iterLen s.serial_open e <;> simp [readLens, Nat.add_assoc]
    · rw [ih5, hm1]
      unfold readLens
      rw [List.filterMap_cons]
      cases iterLen s.serial_open e with
      | none => simp [readLens]
      | some n => simp [readLens]; omega

theorem Script2.iter_state_antenna (s : State) (e : IterEnv) :
    (monitorIterBody s e).1.running = s.running ∧
    (monitorIterBody s e).1.serial_open = s.serial_open ∧
    (monitorIterBody s e).1.threads = s.threads ∧
    (monitorIterBody s e).1.current_antenna = s.current_antenna ∧
    (monitorIterBody s e).1.stats.bytes_received =
      s.stats.bytes_received + (iterLen s.serial_open e).getD 0 ∧
    (monitorIterBody s e).1.stats.messages_received =
      s.stats.messages_received +
        (if (iterLen s.serial_open e).isSome then 1 else 0) := by
  unfold monitorIterBody iterLen
  cases hso : s.serial_open with
  | false => simp [hso]
  | true =>
    cases hre : e.readEvent with
    | fault => simp [hso]
    | data raw =>
      by_cases hr : raw = []
      · simp [hr, hso]
      · cases ha : s.current_antenna with
        | none => simp [hr, hso, ha, updateStats]
        | some a => simp [hr, hso, ha, updateStats]

theorem Script2.iter_antenna (s : State) (e : IterEnv) (r : LogRecord)
    (h : (monitorIterBody s e).2 = some r) : r.antenna = s.current_antenna := by
  unfold monitorIterBody at h
  cases hso : s.serial_open with
  | false => rw [hso] at h; simp at h
  | true =>
    rw [hso] at h
    simp only [if_true] at h
    cases hre : e.readEvent with
    | fault => rw [hre] at h; simp at h
    | data raw =>
      rw [hre] at h
      by_cases hr : raw = []
      · simp [hr] at h
      · cases ha : s.current_antenna with
        | none => simp [hr, ha] at h
        | some a =>
          cases hd : utf8Decode raw with
          | some cps =>
            simp only [hr, ha, hd, if_neg, log_data] at h
            by_cases hdb : s.db_open
            · by_cases hok : e.insertOk
              · simp [hdb, hok, hr] at h
                rw [← h]
              · simp [hdb, hok, hr] at h
            · simp [hdb, hr] at h
          | none =>
            simp only [hr, ha, hd, if_neg, log_data] at h
            by_cases hdb : s.db_open
            · by_cases hok : e.insertOk
              · simp [hdb, hok, hr] at h
                rw [← h]
              · simp [hdb, hok, hr] at h
            · simp [hdb, hr] at h

theorem Script2.loop_antenna (envs : List IterEnv) : ∀ s : State,
    (monitorLoop s envs).1.current_antenna = s.current_antenna ∧
    ∀ r ∈ (monitorLoop s envs).2, r.antenna = s.current_antenna := by
  induction envs with
  | nil => intro s; simp [monitorLoop]
  | cons e rest ih =>
    intro s
    simp only [monitorLoop]
    cases hss : e.stopSignal with
    | true =>
      simp only [if_true]
      by_cases hrun : ({ s with running := false } : State).running
      · simp at hrun
      · simp [hrun]
    | false =>
      simp only [Bool.false_eq_true, if_false, ite_false]
      by_cases hrun : s.running
      · simp only [hrun, if_true, ite_true]
        obtain ⟨_, _, _, ha1, _, _⟩ := iter_state_antenna s e
        obtain ⟨iha, ihr⟩ := ih (monitorIterBody s e).1
        refine ⟨by rw [iha, ha1], ?_⟩
        intro r hr
        rcases List.mem_append.mp hr with hmem | hmem
        · cases hp : (monitorIterBody s e).2 with
          | none => rw [hp] at hmem; simp at hmem
          | some r0 =>
            rw [hp] at hmem
            simp at hmem
            rw [hmem]
            exact iter_antenna s e r0 hp
        · rw [← ha1]
          exact ihr r hmem
      · simp [hrun]

theorem readlineBytes_append (buf : List Nat) :
    (readlineBytes buf).1 ++ (readlineBytes buf).2 = buf := by
  unfold readlineBytes
  have htd := List.takeWhile_append_dropWhile (p := fun b => b != 10) (l := buf)
  cases hd : buf.dropWhile (fun b => b != 10) with
  | nil =>
    rw [hd] at htd
    simpa using htd
  | cons nl tail =>
    rw [hd] at htd
    simpa [List.append_assoc] using htd

theorem Script1.threadInv_step_debug (s : State) (op : Op1)
    (h : s.threads = if s.running then 1 else 0) :
    (stepOp s op).threads = if (stepOp s op).running then 1 else 0 := by
  cases op with
  | connect ok => simpa using h
  | start =>
    unfold stepOp start_monitoring
    by_cases hr : s.running
    · simpa [hr] using h
    · simp [hr] at h
      simp [hr, h]
  | iter e =>
    unfold stepOp
    by_cases hr : s.running
    · obtain ⟨h1, _, h3, _, _, _⟩ := iter_state_debug s e
      simp only [hr, if_true, ite_true]
      rw [h1, h3]
      exact h
    · simpa [hr] using h
  | send cmd cb w i =>
    unfold stepOp send_command
    by_cases hso : s.serial_open
    · by_cases hw : w <;> simp [hso, hw, log_data] <;> exact h
    · simp [hso]; exact h
  | test => simpa using h
  | show_stats => simpa using h
  | stop => simp [stepOp, stop]

theorem Script1.run_threads_debug (ops : List Op1) :
    (run ops).threads = if (run ops).running then 1 else 0 := by
  unfold run
  have hgen : ∀ s : State, s.threads = (if s.running then 1 else 0) →
      (ops.foldl stepOp s).threads =
        if (ops.foldl stepOp s).running then 1 else 0 := by
    induction ops with
    | nil => intro s h; simpa using h
    | cons op rest ih =>
      intro s h
      simp only [List.foldl_cons]
      exact ih (stepOp s op) (threadInv_step_debug s op h)
  exact hgen init rfl

theorem Script2.threadInv_step_antenna (s : State) (op : Op2)
    (h : s.threads = if s.running then 1 else 0) :
    (stepOp s op).threads = if (stepOp s op).running then 1 else 0 := by
  cases op with
  | connect ok => simpa using h
  | set_antenna n =>
    unfold stepOp set_antenna
    by_cases hn : n ≠ 1 ∧ n ≠ 2 <;> simpa [hn] using h
  | start a =>
    unfold stepOp start_monitoring
    by_cases hr : s.running
    · simpa [hr] using h
    · simp [hr] at h
      by_cases ha : a ≠ 1 ∧ a ≠ 2 <;> simp [hr, ha, h]
  | iter e =>
    unfold stepOp
    by_cases hr : s.running
    · obtain ⟨h1, _, h3, _, _, _⟩ := iter_state_antenna s e
      simp only [hr, if_true, ite_true]
      rw [h1, h3]
      exact h
    · simpa [hr] using h
  | show_stats => simpa using h
  | stop => simp [stepOp, stop]

theorem Script2.run_threads_antenna (ops : List Op2) :
    (run ops).threads = if (run ops).running then 1 else 0 := by
  unfold run
  have hgen : ∀ s : State, s.threads = (if s.running then 1 else 0) →
      (ops.foldl stepOp s).threads =
        if (ops.foldl stepOp s).running then 1 else 0 := by
    induction ops with
    | nil => intro s h; simpa using h
    | cons op rest ih =>
      intro s h
      simp only [List.foldl_cons]
      exact ih (stepOp s op) (threadInv_step_antenna s op h)
  exact hgen init rfl

/-- C1 counterexample: for the one byte payload space a line-feed, the claim
    asks for the decoded text stripped of trailing line terminators only
    (space a), but the source applies str.strip and stores just the letter a,
    so the claimed data value is wrong. -/
theorem c1_counterexample :
    (Script1.monitorIterBody s1ex envSpaceA).2 =
      some { data := [97], data_type := DataType.auto_received,
             byte_count := 3, antenna := none } ∧
    stripTrailingLineTerms [32, 97, 10] = [32, 97] ∧
    ([97] : List Nat) ≠ [32, 97] := by decide

/-- C1 (amended): for every nonempty payload that decodes as UTF-8, the
    iteration stores exactly one record with data_type auto_received, data
    equal to the decoded text stripped of leading and trailing whitespace
    (Python str.strip with no arguments, not only trailing line terminators)
    and byte_count equal to the byte length of the original payload; the same
    holds in the antenna variant with the current antenna tag attached. -/
theorem c1_amended (s : Script1.State) (t : Script2.State) (e : IterEnv)
    (raw cps : List Nat) (a : Nat)
    (hs : s.serial_open = true) (hre : e.readEvent = ReadEvent.data raw)
    (hraw : raw ≠ []) (hdec : utf8Decode raw = some cps)
    (hins : e.insertOk = true) :
    (Script1.monitorIterBody s e).2 =
      some { data := pyStrip cps, data_type := DataType.auto_received,
             byte_count := raw.length, antenna := none } ∧
    (t.serial_open = true → t.db_open = true → t.current_antenna = some a →
      (Script2.monitorIterBody t e).2 =
        some { data := pyStrip cps, data_type := DataType.auto_received,
               byte_count := raw.length, antenna := some a }) := by
  constructor
  · unfold Script1.monitorIterBody
    simp [hs, hre, hraw, hdec, hins, Script1.log_data]
  · intro ht hdb hant
    unfold Script2.monitorIterBody
    simp [ht, hre, hraw, hdec, hant, hdb, hins, Script2.log_data]

/-- C1 witness: the end to end hello scenario of the spec. -/
theorem c1_amended_witness :
    (Script1.monitorIterBody s1ex envHello).2 =
      some { data := [104, 105], data_type := DataType.auto_received,
             byte_count := 3, antenna := none } := by
  have h := (c1_amended s1ex s2ex envHello [104, 105, 10] [104, 105, 10] 2 rfl rfl
    (by decide) (by decide) rfl).1
  rw [h]
  decide

/-- C2: for every nonempty payload that is not valid UTF-8, the iteration
    stores exactly one record with data_type binary_received, data the hex
    encoding of the payload and byte_count its byte length; the decode
    failure is caught (UnicodeDecodeError branch) and the payload is not
    dropped, in both variants. -/
theorem c2_theorem (s : Script1.State) (t : Script2.State) (e : IterEnv)
    (raw : List Nat) (a : Nat)
    (hs : s.serial_open = true) (hre : e.readEvent = ReadEvent.data raw)
    (hraw : raw ≠ []) (hdec : utf8Decode raw = none)
    (hins : e.insertOk = true) :
    (Script1.monitorIterBody s e).2 =
      some { data := bytesToHex raw, data_type := DataType.binary_received,
             byte_count := raw.length, antenna := none } ∧
    (t.serial_open = true → t.db_open = true → t.current_antenna = some a →
      (Script2.monitorIterBody t e).2 =
        some { data := bytesToHex raw, data_type := DataType.binary_received,
               byte_count := raw.length, antenna := some a }) := by
  constructor
  · unfold Script1.monitorIterBody
    simp [hs, hre, hraw, hdec, hins, Script1.log_data]
  · intro ht hdb hant
    unfold Script2.monitorIterBody
    simp [ht, hre, hraw, hdec, hant, hdb, hins, Script2.log_data]

/-- C2 witness: a single invalid byte is stored as its hex text ff. -/
theorem c2_witness :
    (Script1.monitorIterBody s1ex envBin).2 =
      some { data := [102, 102], data_type := DataType.binary_received,
             byte_count := 1, antenna := none } := by
  have h := (c2_theorem s1ex s2ex envBin [255] 2 rfl rfl (by decide) (by decide)
    rfl).1
  rw [h]
  decide

/-- C3: with no stop signal the loop keeps running through every iteration
    whatever faults occur, and its output rows are exactly the per iteration
    rows of all iterations, so payloads after a failed insert are still
    stored; a stop signal ends the loop at once; and in the networked variant
    a failed insert triggers exactly one reconnect attempt inside log_data,
    which itself returns normally. -/
theorem c3_theorem (s : Script1.State) (envs : List IterEnv) (e : IterEnv)
    (rest : List IterEnv) (dbOpen insertOk reconnectOk : Bool)
    (data raw : List Nat) (a : Nat) (dt : DataType) :
    (s.running = true → (∀ x ∈ envs, x.stopSignal = false) →
      (Script1.monitorLoop s envs).1.running = true ∧
      (Script1.monitorLoop s envs).2 =
        envs.filterMap (Script1.iterRecord s.serial_open)) ∧
    (e.stopSignal = true →
      Script1.monitorLoop s (e :: rest) = ({ s with running := false }, [])) ∧
    (dbOpen = true → insertOk = false →
      (Script2.log_data dbOpen insertOk reconnectOk data raw a dt).2.2 = true ∧
      (Script2.log_data dbOpen insertOk reconnectOk data raw a dt).1 =
        reconnectOk) := by
  refine ⟨?_, ?_, ?_⟩
  · intro hrun hns
    obtain ⟨h1, _, h3, _, _⟩ := Script1.loop_spec envs s hrun hns
    exact ⟨h1, h3⟩
  · intro hstop
    simp [Script1.monitorLoop, hstop]
  · intro hdb hins
    simp [Script2.log_data, hdb, hins]

/-- C3 witness: an insert failure on the first payload does not stop the
    second payload from being read and stored. -/
theorem c3_witness :
    (Script1.monitorLoop s1ex [envBadInsert, envHello]).1.running = true ∧
    (Script1.monitorLoop s1ex [envBadInsert, envHello]).2 =
      [envBadInsert, envHello].filterMap (Script1.iterRecord s1ex.serial_open) := by
  exact (c3_theorem s1ex [envBadInsert, envHello] envStop [] true true true [] []
    1 DataType.auto_received).1 rfl (by decide)

/-- C4 counterexample: the three stat writes are separate assignments, so
    after the first write of a six byte read the observable counters are six
    bytes and zero messages, a pair matching no prefix of the read history
    [6]: the claimed atomic (never torn) update is false. -/
theorem c4_counterexample :
    (statWriteSeq stats0 6 5).getD 1 stats0 =
      { bytes_received := 6, messages_received := 0, last_data_time := none } ∧
    consistentSnapshot [6] 6 0 = false := by decide

/-- C4 (amended): the three stat updates are three separate writes, so a
    reader interleaved between them can observe a torn pair; once the write
    sequence completes its result is exactly the combined update, and over
    any fault free ordering of complete iterations starting from zeroed
    counters, after N successful nonempty reads totaling B bytes the stats
    hold messages_received = N and bytes_received = B. -/
theorem c4_amended (st : Stats) (rawLen now : Nat) (s : Script1.State)
    (envs : List IterEnv)
    (hrun : s.running = true) (hns : ∀ x ∈ envs, x.stopSignal = false)
    (hb0 : s.stats.bytes_received = 0) (hm0 : s.stats.messages_received = 0) :
    (statWriteSeq st rawLen now).getLast? = some (updateStats st rawLen now) ∧
    (Script1.monitorLoop s envs).1.stats.bytes_received =
      (readLens s.serial_open envs).sum ∧
    (Script1.monitorLoop s envs).1.stats.messages_received =
      (readLens s.serial_open envs).length := by
  obtain ⟨_, _, _, h4, h5⟩ := Script1.loop_spec envs s hrun hns
  refine ⟨rfl, ?_, ?_⟩
  · rw [h4, hb0, Nat.zero_add]
  · rw [h5, hm0, Nat.zero_add]

/-- C4 witness: two complete reads of three and one bytes from zeroed
    counters give exactly two messages and four bytes. -/
theorem c4_witness :
    (Script1.monitorLoop s1ex [envHello, envNl]).1.stats.messages_received =
      (readLens s1ex.serial_open [envHello, envNl]).length := by
  exact (c4_amended s1ex.stats 6 5 s1ex [envHello, envNl] rfl (by decide) rfl
    rfl).2.2

/-- C5: calling start while running returns at once with the already running
    notice, spawns nothing and leaves the state unchanged, in both variants;
    and along every operation sequence from the constructor at most one
    monitor thread is alive. -/
theorem c5_theorem (s : Script1.State) (t : Script2.State) (n : Nat)
    (ops1 : List Script1.Op1) (ops2 : List Script2.Op2) :
    (s.running = true →
      Script1.start_monitoring s = (s, Script1.StartResult.alreadyRunning)) ∧
    (t.running = true →
      Script2.start_monitoring t n = (t, Script1.StartResult.alreadyRunning)) ∧
    (Script1.run ops1).threads ≤ 1 ∧
    (Script2.run ops2).threads ≤ 1 := by
  refine ⟨?_, ?_, ?_, ?_⟩
  · intro h; simp [Script1.start_monitoring, h]
  · intro h; simp [Script2.start_monitoring, h]
  · rw [Script1.run_threads_debug]; split <;> omega
  · rw [Script2.run_threads_antenna]; split <;> omega

/-- C5 witness: a second start on a running logger is refused and changes
    nothing, and two starts in a row still leave at most one thread. -/
theorem c5_witness :
    Script1.start_monitoring s1ex = (s1ex, Script1.StartResult.alreadyRunning) ∧
    (Script1.run [Script1.Op1.start, Script1.Op1.start]).threads ≤ 1 := by
  refine ⟨?_, ?_⟩
  · exact (c5_theorem s1ex s2ex 1 [] []).1 rfl
  · exact (c5_theorem s1ex s2ex 1 [Script1.Op1.start, Script1.Op1.start]
      []).2.2.1

/-- C6: stop flips running off, joins a live monitor thread with the bounded
    timeout of two time units, releases the serial and store handles, prints
    the untouched final stats, and a second stop neither changes the state
    nor joins anything, in both variants. -/
theorem c6_theorem (s : Script1.State) (t : Script2.State) :
    (Script1.stop s).state.running = false ∧
    (Script1.stop s).state.serial_open = false ∧
    (Script1.stop s).state.db_open = false ∧
    (Script1.stop s).state.stats = s.stats ∧
    (Script1.stop s).printed_stats = s.stats ∧
    (0 < s.threads → (Script1.stop s).join_timeout = some 2) ∧
    (Script1.stop (Script1.stop s).state).state = (Script1.stop s).state ∧
    (Script1.stop (Script1.stop s).state).join_timeout = none ∧
    (Script2.stop t).state.running = false ∧
    (Script2.stop t).state.serial_open = false ∧
    (Script2.stop t).state.db_open = false ∧
    (Script2.stop t).state.stats = t.stats ∧
    (Script2.stop t).printed_stats = t.stats ∧
    (0 < t.threads → (Script2.stop t).join_timeout = some 2) ∧
    (Script2.stop (Script2.stop t).state).state = (Script2.stop t).state ∧
    (Script2.stop (Script2.stop t).state).join_timeout = none := by
  refine ⟨rfl, rfl, rfl, rfl, rfl, ?_, rfl, ?_, rfl, rfl, rfl, rfl, rfl, ?_,
    rfl, ?_⟩
  · intro h; simp [Script1.stop, stopJoinLimit, h]
  · simp [Script1.stop]
  · intro h; simp [Script2.stop, stopJoinLimit, h]
  · simp [Script2.stop]

/-- C6 witness: stopping a logger with a live thread joins it with timeout 2
    and a second stop changes nothing. -/
theorem c6_witness :
    (Script1.stop s1ex).join_timeout = some 2 ∧
    (Script1.stop (Script1.stop s1ex).state).state = (Script1.stop s1ex).state := by
  refine ⟨?_, ?_⟩
  · exact (c6_theorem s1ex s2ex).2.2.2.2.2.1 (by decide)
  · exact (c6_theorem s1ex s2ex).2.2.2.2.2.2.1

/-- C7 counterexample: the constructor of the antenna variant never creates
    the current_antenna attribute, so right after construction it is absent
    (show_stats would print Not set), not defaulted to 1. -/
theorem c7_counterexample :
    Script2.init.current_antenna = none ∧
    Script2.init.current_antenna ≠ some 1 := by decide

/-- C7 (amended): current_antenna is absent after construction (the
    interactive start command substitutes 1 through its getattr fallback);
    once set_antenna stores a valid antenna A and monitoring is started,
    every row the loop hands to the store carries antenna = A until it is
    changed. -/
theorem c7_amended (s : Script2.State) (a : Nat) (envs : List IterEnv)
    (ha : a = 1 ∨ a = 2) :
    Script2.init.current_antenna = none ∧
    Script2.antennaOrDefault Script2.init = 1 ∧
    (Script2.set_antenna s a).1.current_antenna = some a ∧
    ∀ r ∈ (Script2.monitorLoop
        (Script2.start_monitoring (Script2.set_antenna s a).1 a).1 envs).2,
      r.antenna = some a := by
  have hset : (Script2.set_antenna s a).1.current_antenna = some a := by
    rcases ha with h | h <;> subst h <;> simp [Script2.set_antenna]
  refine ⟨rfl, rfl, hset, ?_⟩
  have hs1a :
      (Script2.start_monitoring (Script2.set_antenna s a).1 a).1.current_antenna =
        some a := by
    unfold Script2.start_monitoring
    by_cases hr : (Script2.set_antenna s a).1.running
    · simpa [hr] using hset
    · rcases ha with h | h <;> subst h <;> simp [hr]
  intro r hr
  obtain ⟨_, hrec⟩ :=
    Script2.loop_antenna envs (Script2.start_monitoring (Script2.set_antenna s a).1 a).1
  rw [← hs1a]
  exact hrec r hr

/-- C7 witness: with antenna 2 selected and monitoring started, the stored
    hello row carries antenna 2. -/
theorem c7_amended_witness : recHello2.antenna = some 2 := by
  exact (c7_amended s2ex 2 [envHello] (Or.inr rfl)).2.2.2 recHello2 (by decide)

/-- C8 counterexample: with a line and a following byte buffered, one
    iteration of script.py consumes the framed line and then one extra byte
    through the single byte read of method 3, so the claim that bytes are
    consumed only through the framed line read is false for the debug
    variant. -/
theorem c8_counterexample :
    (Script1.iterConsume [97, 10, 98, 10]).2.1 = some 98 ∧
    (readlineBytes [97, 10, 98, 10]).1 = [97, 10] := by decide

/-- C8 (amended): the antenna variant consumes buffered bytes only through
    the framed line read; the debug variant additionally consumes exactly one
    byte per iteration through the single byte read whenever bytes remain
    after the line read, and no byte is lost anywhere. -/
theorem c8_amended (buf : List Nat) :
    (Script2.iterConsume buf).1 ++ (Script2.iterConsume buf).2 = buf ∧
    (Script1.iterConsume buf).1 ++ (Script1.iterConsume buf).2.1.toList ++
      (Script1.iterConsume buf).2.2 = buf ∧
    ((Script1.iterConsume buf).2.1 = none ↔ (readlineBytes buf).2 = []) := by
  have hc := readlineBytes_append buf
  refine ⟨hc, ?_, ?_⟩
  · unfold Script1.iterConsume
    dsimp only
    cases hd : (readlineBytes buf).2 with
    | nil =>
      rw [hd] at hc
      simpa using hc
    | cons b tail =>
      rw [hd] at hc
      simpa [List.append_assoc] using hc
  · unfold Script1.iterConsume
    dsimp only
    cases hd : (readlineBytes buf).2 with
    | nil => simp
    | cons b tail => simp

/-- C9: an empty read produces no row and leaves the state untouched, while
    any nonempty payload, even one stripping to an empty string, updates the
    stats and is handed to the store, in both variants. -/
theorem c9_theorem (s : Script1.State) (t : Script2.State) (e : IterEnv)
    (raw : List Nat) (a : Nat)
    (hs : s.serial_open = true) (ht : t.serial_open = true) :
    ((e.readEvent = ReadEvent.data [] ∨ e.readEvent = ReadEvent.fault) →
      Script1.monitorIterBody s e = (s, none) ∧
      Script2.monitorIterBody t e = (t, none)) ∧
    (e.readEvent = ReadEvent.data raw → raw ≠ [] →
      (Script1.monitorIterBody s e).1.stats =
        updateStats s.stats raw.length e.now ∧
      (Script2.monitorIterBody t e).1.stats =
        updateStats t.stats raw.length e.now ∧
      (e.insertOk = true →
        ((Script1.monitorIterBody s e).2).isSome = true) ∧
      (e.insertOk = true → t.db_open = true → t.current_antenna = some a →
        ((Script2.monitorIterBody t e).2).isSome = true)) := by
  constructor
  · rintro (hre | hre)
    · constructor
      · unfold Script1.monitorIterBody; simp [hs, hre]
      · unfold Script2.monitorIterBody; simp [ht, hre]
    · constructor
      · unfold Script1.monitorIterBody; simp [hs, hre]
      · unfold Script2.monitorIterBody; simp [ht, hre]
  · intro hre hraw
    refine ⟨?_, ?_, ?_, ?_⟩
    · unfold Script1.monitorIterBody
      simp [hs, hre, hraw]
    · unfold Script2.monitorIterBody
      cases hant : t.current_antenna <;> simp [ht, hre, hraw, hant]
    · intro hins
      unfold Script1.monitorIterBody
      cases hd : utf8Decode raw <;>
        simp [hs, hre, hraw, hd, hins, Script1.log_data]
    · intro hins hdb hant
      unfold Script2.monitorIterBody
      cases hd : utf8Decode raw <;>
        simp [ht, hre, hraw, hd, hins, hdb, hant, Script2.log_data]

/-- C9 witness: a lone line feed payload still yields a stored row whose data
    is the empty string, with the stats updated, while an idle read yields
    nothing. -/
theorem c9_witness :
    Script1.monitorIterBody s1ex envIdle = (s1ex, none) ∧
    ((Script1.monitorIterBody s1ex envNl).2).isSome = true := by
  refine ⟨?_, ?_⟩
  · exact ((c9_theorem s1ex s2ex envIdle [10] 2 rfl rfl).1 (Or.inl rfl)).1
  · exact ((c9_theorem s1ex s2ex envNl [10] 2 rfl rfl).2 rfl (by decide)).2.2.1
      rfl

/-- C10: no operation of either variant decreases bytes_received or
    messages_received, and whenever messages_received grows in a step,
    bytes_received grows in the same step. -/
theorem c10_theorem (s : Script1.State) (op1 : Script1.Op1)
    (t : Script2.State) (op2 : Script2.Op2) :
    (s.stats.bytes_received ≤ (Script1.stepOp s op1).stats.bytes_received ∧
     s.stats.messages_received ≤
       (Script1.stepOp s op1).stats.messages_received ∧
     (s.stats.messages_received <
        (Script1.stepOp s op1).stats.messages_received →
      s.stats.bytes_received < (Script1.stepOp s op1).stats.bytes_received)) ∧
    (t.stats.bytes_received ≤ (Script2.stepOp t op2).stats.bytes_received ∧
     t.stats.messages_received ≤
       (Script2.stepOp t op2).stats.messages_received ∧
     (t.stats.messages_received <
        (Script2.stepOp t op2).stats.messages_received →
      t.stats.bytes_received < (Script2.stepOp t op2).stats.bytes_received)) := by
  constructor
  · cases op1 with
    | connect ok => simp [Script1.stepOp]
    | start =>
      unfold Script1.stepOp Script1.start_monitoring
      by_cases hr : s.running <;> simp [hr]
    | iter e =>
      unfold Script1.stepOp
      by_cases hr : s.running
      · simp only [hr, if_true, ite_true]
        obtain ⟨_, _, _, _, hb, hm⟩ := Script1.iter_state_debug s e
        rw [hb, hm]
        cases hl : iterLen s.serial_open e with
        | none => simp
        | some n =>
          have hn := iterLen_pos s.serial_open e n hl
          simp
          omega
      · simp [hr]
    | send cmd cb w i =>
      unfold Script1.stepOp Script1.send_command
      by_cases hso : s.serial_open
      · by_cases hw : w <;> simp [hso, hw]
      · simp [hso]
    | test => simp [Script1.stepOp]
    | show_stats => simp [Script1.stepOp]
    | stop => simp [Script1.stepOp, Script1.stop]
  · cases op2 with
    | connect ok => simp [Script2.stepOp]
    | set_antenna n =>
      unfold Script2.stepOp Script2.set_antenna
      by_cases hn : n ≠ 1 ∧ n ≠ 2 <;> simp [hn]
    | start a =>
      unfold Script2.stepOp Script2.start_monitoring
      by_cases hr : t.running
      · simp [hr]
      · by_cases ha : a ≠ 1 ∧ a ≠ 2 <;> simp [hr, ha]
    | iter e =>
      unfold Script2.stepOp
      by_cases hr : t.running
      · simp only [hr, if_true, ite_true]
        obtain ⟨_, _, _, _, hb, hm⟩ := Script2.iter_state_antenna t e
        rw [hb, hm]
        cases hl : iterLen t.serial_open e with
        | none => simp
        | some n =>
          have hn := iterLen_pos t.serial_open e n hl
          simp
          omega
      · simp [hr]
    | show_stats => simp [Script2.stepOp]
    | stop => simp [Script2.stepOp, Script2.stop]

/-- C10 witness: a successful read grows both counters. -/
theorem c10_witness :
    s1ex.stats.bytes_received ≤
      (Script1.stepOp s1ex (Script1.Op1.iter envHello)).stats.bytes_received := by
  exact (c10_theorem s1ex (Script1.Op1.iter envHello) s2ex
    Script2.Op2.show_stats).1.1

end SerialDB